import Mathlib

/-!
Shallow embedding of the Feel Good Spas enrichment pipeline
(`src/vcon_parser.py` and `src/data_processor.py`) and verification of the
frozen specification claims.

Modelling conventions:
* Python strings are Lean `String`s; `s.lower()` is `lowerStr` (ASCII case
  folding, which covers every keyword list in the source); the Python
  substring test `needle in hay` is `substrIn`.
* Python numbers (floats used for durations, scores, rates) are modelled as
  `ℚ`.  `round(x, d)` is `roundTo d` (round half to even, as Python does);
  `max`/`min` on numbers are `pyMax`/`pyMin`.
* Fallible Python code (dictionary lookups that can raise `KeyError`,
  exceptions that propagate) is modelled in `Except String`.
* External library calls are parameters: the TextBlob sentiment model is a
  function `blob : String → ℚ × ℚ` (polarity, subjectivity) and
  `datetime.fromisoformat` is `parse : String → Option PyDateTime`
  (`none` = `ValueError`).
-/

/-- ASCII lower-casing of a string, modelling Python `str.lower()` on the
ASCII keyword data used by the pipeline. -/
def lowerStr (s : String) : String := String.mk (s.data.map Char.toLower)

/-- `listPrefixOf n h` is true when `n` is a prefix of `h`. -/
def listPrefixOf : List Char → List Char → Bool
  | [], _ => true
  | _ :: _, [] => false
  | a :: as, b :: bs => a == b && listPrefixOf as bs

/-- `listContainsSub n h` is true when `n` occurs contiguously inside `h`. -/
def listContainsSub (needle : List Char) : List Char → Bool
  | [] => listPrefixOf needle []
  | h :: t => listPrefixOf needle (h :: t) || listContainsSub needle t

/-- Python `needle in hay` substring test. -/
def substrIn (needle hay : String) : Bool := listContainsSub needle.data hay.data

/-- Python `sum(1 for keyword in keywords if keyword in text)`: the number of
keywords of the list that occur in `text` (each list entry counted once). -/
def countPresent (keywords : List String) (text : String) : Nat :=
  keywords.countP (fun kw => substrIn kw text)

/-- Nearest integer with ties to even, modelling Python `round` on exact
rational values. -/
def pyRoundInt (q : ℚ) : ℤ :=
  if q - (⌊q⌋ : ℚ) < 1/2 then ⌊q⌋
  else if (1 : ℚ)/2 < q - (⌊q⌋ : ℚ) then ⌊q⌋ + 1
  else if ⌊q⌋ % 2 = 0 then ⌊q⌋ else ⌊q⌋ + 1

/-- Python `round(q, digits)`. -/
def roundTo (digits : Nat) (q : ℚ) : ℚ :=
  ((pyRoundInt (q * (10 : ℚ) ^ digits) : ℤ) : ℚ) / (10 : ℚ) ^ digits

/-- Python `max(a, b)` on numbers. -/
def pyMax (a b : ℚ) : ℚ := if b ≤ a then a else b

/-- Python `min(a, b)` on numbers. -/
def pyMin (a b : ℚ) : ℚ := if a ≤ b then a else b

/-! ## vcon_parser.py -/

/-- A party record as produced by `VConParser._extract_parties` (the `role`
field is computed by `_determine_party_role` below, so it is not stored). -/
structure Party where
  name : String := "Unknown"
  tel : String := ""
  email : String := ""
  location : String := ""
  organization : String := ""
  deriving Repr, DecidableEq

/-- Name substrings flagging an agent in `_determine_party_role`. -/
def agentNameIndicators : List String := ["support", "agent", "rep", "service"]

/-- `VConParser._determine_party_role`: agent when the lower-cased name
contains an agent indicator, or the lower-cased email contains
`"feelgoodspas"` or `"spa"`; otherwise customer. -/
def determinePartyRole (party : Party) : String :=
  let name := lowerStr party.name
  let email := lowerStr party.email
  if agentNameIndicators.any (fun ind => substrIn ind name) then "agent"
  else if substrIn "feelgoodspas" email || substrIn "spa" email then "agent"
  else "customer"

/-- Modelled from the spec (§4.2 RoleResolver): the domain part of an email
address, i.e. everything after the first `"@"` (empty when there is none).
The source checks the whole email string, the spec speaks of the email
domain; this definition follows the spec wording for comparison. -/
def emailDomain (email : String) : String :=
  match email.data.dropWhile (fun c => c != '@') with
  | [] => ""
  | _ :: t => String.mk t

/-- A dialog turn as produced by `VConParser._extract_dialog`, with the same
defaults as the Python `dict.get` calls. -/
structure DialogEntry where
  type : String := "text"
  party : Nat := 0
  start : ℚ := 0
  duration : ℚ := 0
  body : String := ""
  mimetype : String := ""
  url : String := ""
  encoding : String := "none"
  deriving Repr, DecidableEq

/-- An analysis entry as produced by `VConParser._extract_analysis` (the
opaque `body` payload is kept as a string). -/
structure AnalysisEntry where
  type : String := ""
  dialog : Nat := 0
  vendor : String := ""
  schema : String := ""
  body : String := ""
  encoding : String := "json"
  deriving Repr, DecidableEq

def bookingKeywords : List String :=
  ["appointment", "booking", "schedule", "reserve", "book"]

def complaintKeywords : List String :=
  ["complaint", "problem", "issue", "unhappy", "dissatisfied"]

def billingKeywords : List String :=
  ["billing", "payment", "charge", "invoice", "refund"]

def serviceKeywords : List String :=
  ["service", "treatment", "massage", "facial", "spa"]

/-- `VConParser._classify_conversation_type`: count keyword presences in four
buckets over the lower-cased text and return the first bucket (in checking
order booking, complaint, billing, service) whose count equals the maximum;
`"general"` when every count is zero. -/
def classifyConversationType (text : String) : String :=
  let tl := lowerStr text
  let booking_count := countPresent bookingKeywords tl
  let complaint_count := countPresent complaintKeywords tl
  let billing_count := countPresent billingKeywords tl
  let service_count := countPresent serviceKeywords tl
  let max_count :=
    max (max (max booking_count complaint_count) billing_count) service_count
  if max_count = 0 then "general"
  else if max_count = booking_count then "booking"
  else if max_count = complaint_count then "complaint"
  else if max_count = billing_count then "billing"
  else "service_inquiry"

/-- Modelled from the spec wording of claim C8: score the four buckets, and
return the label of the first bucket (fixed order booking, complaint,
billing, service) attaining the highest count, `"general"` when all four
counts are zero. -/
def specConversationType (text : String) : String :=
  let tl := lowerStr text
  let counts : List (Nat × String) :=
    [(countPresent bookingKeywords tl, "booking"),
     (countPresent complaintKeywords tl, "complaint"),
     (countPresent billingKeywords tl, "billing"),
     (countPresent serviceKeywords tl, "service_inquiry")]
  let m := (counts.map Prod.fst).foldl max 0
  if m = 0 then "general"
  else (((counts.find? (fun p => p.1 == m)).map Prod.snd).getD "general")

/-- Structural conversation metrics of `_calculate_conversation_metrics`. -/
structure Metrics where
  total_duration : ℚ
  message_count : Nat
  agent_messages : Nat
  customer_messages : Nat
  avg_response_time : ℚ
  conversation_type : String
  has_recording : Bool
  has_analysis : Bool
  deriving Repr, DecidableEq

/-- The per-entry loop body of `_calculate_conversation_metrics`: add the
duration, count the turn as agent (party 0) or customer (any other party),
and record the presence of a recording turn. -/
def metricsLoop : List DialogEntry → Metrics → Metrics
  | [], m => m
  | e :: rest, m =>
    let m := { m with total_duration := m.total_duration + e.duration }
    let m :=
      if e.party == 0 then { m with agent_messages := m.agent_messages + 1 }
      else { m with customer_messages := m.customer_messages + 1 }
    let m := if e.type == "recording" then { m with has_recording := true } else m
    metricsLoop rest m

/-- `VConParser._calculate_conversation_metrics`.  The Python
`isinstance(duration, (int, float))` guard is always satisfied in the model
because durations are rationals. -/
def calculateConversationMetrics (dialog : List DialogEntry)
    (analysis : List AnalysisEntry) : Metrics :=
  let init : Metrics :=
    { total_duration := 0
      message_count := dialog.length
      agent_messages := 0
      customer_messages := 0
      avg_response_time := 0
      conversation_type := "unknown"
      has_recording := false
      has_analysis := decide (0 < analysis.length) }
  let m := metricsLoop dialog init
  { m with
      conversation_type :=
        classifyConversationType (String.intercalate " " (dialog.map (fun e => e.body))) }

/-! ## data_processor.py -/

/-- One business-data record as produced by
`VConParser.extract_business_data`, restricted to the fields that
`_enrich_conversation_data` reads, plus identity fields. -/
structure Conversation where
  conversation_id : String := ""
  subject : String := "Unknown"
  created_at : String := ""
  duration_seconds : ℚ := 0
  message_count : Nat := 0
  conversation_type : String := "unknown"
  agent_name : String := "Unknown"
  agent_email : String := ""
  customer_name : String := "Unknown"
  customer_phone : String := ""
  location : String := "Unknown"
  conversation_text : String := ""
  deriving Repr, DecidableEq

/-- Result fields of `_analyze_sentiment`. -/
structure SentimentResult where
  sentiment_polarity : ℚ
  sentiment_subjectivity : ℚ
  sentiment_label : String
  customer_satisfaction_score : ℚ
  deriving Repr, DecidableEq

/-- `SpaDataProcessor._analyze_sentiment`, with the TextBlob model abstracted
as `blob` returning (polarity, subjectivity).  Empty text short-circuits to
the neutral defaults without consulting the model; model exceptions are
caught in the source and also produce the defaults, so the function is
total. -/
def analyzeSentiment (blob : String → ℚ × ℚ) (text : String) : SentimentResult :=
  if text = "" then
    { sentiment_polarity := 0
      sentiment_subjectivity := 0
      sentiment_label := "neutral"
      customer_satisfaction_score := 5 }
  else
    let polarity := (blob text).1
    let subjectivity := (blob text).2
    let label :=
      if 1/10 < polarity then "positive"
      else if polarity < -(1/10) then "negative"
      else "neutral"
    let satisfaction := pyMax 1 (pyMin 10 (5 + polarity * 5))
    { sentiment_polarity := roundTo 3 polarity
      sentiment_subjectivity := roundTo 3 subjectivity
      sentiment_label := label
      customer_satisfaction_score := roundTo 1 satisfaction }

/-- The nine topic buckets of `_classify_topics`, in dictionary insertion
order. -/
def topicKeywords : List (String × List String) :=
  [("appointment_scheduling",
    ["appointment", "schedule", "booking", "book", "reserve", "availability"]),
   ("service_inquiry",
    ["service", "treatment", "massage", "facial", "spa", "therapy", "package"]),
   ("billing_payment",
    ["billing", "payment", "charge", "invoice", "refund", "credit", "cost", "price"]),
   ("complaint",
    ["complaint", "problem", "issue", "unhappy", "dissatisfied", "disappointed", "terrible"]),
   ("compliment",
    ["great", "excellent", "amazing", "wonderful", "fantastic", "love", "satisfied"]),
   ("cancellation",
    ["cancel", "cancellation", "reschedule", "change", "modify"]),
   ("technical_support",
    ["website", "app", "technical", "login", "password", "system"]),
   ("product_inquiry",
    ["product", "gift card", "membership", "package", "voucher"]),
   ("location_hours",
    ["hours", "location", "address", "directions", "parking", "open", "closed"])]

/-- The per-bucket score mapping `topic_scores` of `_classify_topics`. -/
def topicScoresOf (text : String) : List (String × Nat) :=
  topicKeywords.map (fun p => (p.1, countPresent p.2 (lowerStr text)))

/-- Python `max(d, key=d.get)` on a score mapping: the first key (in
insertion order) whose value attains the maximum.  The fallback is never hit
on the nonempty mapping the source applies this to. -/
def pyDictMaxKey (scores : List (String × Nat)) : String :=
  let m := (scores.map Prod.snd).foldl Nat.max 0
  (((scores.find? (fun p => p.2 == m)).map Prod.fst).getD "")

/-- Result fields of `_classify_topics` (`topic_scores` is emitted as JSON in
the source; the model keeps the mapping itself). -/
structure TopicsResult where
  primary_topic : String
  topic_confidence : ℚ
  topic_scores : List (String × Nat)
  deriving Repr, DecidableEq

/-- `SpaDataProcessor._classify_topics`.  When every bucket count is zero the
source sets `primary_topic = "general"` and then evaluates
`topic_scores[primary_topic]`, a lookup of a key that is not in the mapping:
that raises `KeyError`, modelled as the `Except.error` branch. -/
def classifyTopics (text : String) : Except String TopicsResult :=
  let scores := topicScoresOf text
  let primary :=
    if scores.any (fun p => p.2 != 0) then pyDictMaxKey scores else "general"
  let total := (scores.map Prod.snd).sum
  match List.lookup primary scores with
  | none => Except.error ("KeyError: " ++ primary)
  | some s =>
    Except.ok
      { primary_topic := primary
        topic_confidence := roundTo 3 ((s : ℚ) / ((Nat.max total 1 : ℕ) : ℚ))
        topic_scores := scores }

/-- The ten positive quality indicators of `_assess_call_quality`. -/
def positiveIndicators : List String :=
  ["thank you", "please", "help", "understand", "sorry", "apologize",
   "certainly", "absolutely", "of course", "glad to help"]

/-- The nine negative quality indicators of `_assess_call_quality`. -/
def negativeIndicators : List String :=
  ["rude", "unprofessional", "hang up", "transfer", "manager",
   "escalate", "frustrated", "angry", "upset"]

/-- Result fields of `_assess_call_quality`. -/
structure QualityResult where
  call_quality_score : ℚ
  positive_indicators_count : Nat
  negative_indicators_count : Nat
  deriving Repr, DecidableEq

/-- `SpaDataProcessor._assess_call_quality` (the `try` block cannot fail in
the model, so the `except` fallback is unreachable). -/
def assessCallQuality (text : String) (duration : ℚ) : QualityResult :=
  let tl := lowerStr text
  let positive_count := countPresent positiveIndicators tl
  let negative_count := countPresent negativeIndicators tl
  let base : ℚ := 7 + (positive_count : ℚ) * (3/10) - (negative_count : ℚ) * (1/2)
  let base :=
    if 120 ≤ duration ∧ duration ≤ 600 then base + 1/2
    else if 900 < duration then base - 3/10
    else base
  let quality := pyMax 1 (pyMin 10 base)
  { call_quality_score := roundTo 1 quality
    positive_indicators_count := positive_count
    negative_indicators_count := negative_count }

/-- The six script elements of `_analyze_script_adherence` with their marker
phrases. -/
def scriptElements : List (String × List String) :=
  [("greeting", ["thank you for calling", "feel good spas", "how can i help", "this is"]),
   ("identification", ["my name is", "this is", "speaking"]),
   ("problem_acknowledgment", ["understand", "i see", "i hear", "let me help"]),
   ("solution_offering", ["i can help", "let me", "what i can do", "here\x27s what"]),
   ("follow_up", ["anything else", "is there anything", "follow up", "contact us"]),
   ("closing", ["thank you", "have a great", "wonderful day", "goodbye"])]

/-- Result fields of `_analyze_script_adherence` (`script_details` is emitted
as JSON in the source; the model keeps the mapping). -/
structure ScriptResult where
  script_adherence_rate : ℚ
  script_elements_followed : Nat
  script_elements_total : Nat
  script_details : List (String × Nat)
  deriving Repr, DecidableEq

/-- `SpaDataProcessor._analyze_script_adherence`. -/
def analyzeScriptAdherence (text : String) : ScriptResult :=
  let tl := lowerStr text
  let adherence_scores : List (String × Nat) :=
    scriptElements.map
      (fun e => (e.1, if e.2.any (fun ph => substrIn ph tl) then (1 : Nat) else 0))
  let total_elements : Nat := scriptElements.length
  let followed_elements : Nat := (adherence_scores.map Prod.snd).sum
  { script_adherence_rate :=
      roundTo 3 ((followed_elements : ℚ) / (total_elements : ℚ))
    script_elements_followed := followed_elements
    script_elements_total := total_elements
    script_details := adherence_scores }

/-- The four customer-experience phrase lists of
`_analyze_customer_experience` (the source lists `"complicated"` twice in
the difficulty list; the duplicate is kept). -/
def satisfactionIndicators : List String :=
  ["satisfied", "happy", "pleased", "great", "excellent",
   "wonderful", "amazing", "love", "perfect", "fantastic"]

def dissatisfactionIndicators : List String :=
  ["dissatisfied", "unhappy", "upset", "angry", "frustrated",
   "terrible", "awful", "horrible", "worst", "hate"]

def effortIndicators : List String :=
  ["easy", "simple", "quick", "fast", "convenient",
   "smooth", "efficient", "straightforward"]

def difficultyIndicators : List String :=
  ["difficult", "hard", "complicated", "confusing",
   "slow", "long wait", "forever", "complicated"]

/-- Result fields of `_analyze_customer_experience`. -/
structure ExperienceResult where
  customer_satisfaction_indicators : Nat
  customer_dissatisfaction_indicators : Nat
  low_effort_indicators : Nat
  high_effort_indicators : Nat
  net_satisfaction_score : ℤ
  net_effort_score : ℤ
  deriving Repr, DecidableEq

/-- `SpaDataProcessor._analyze_customer_experience`. -/
def analyzeCustomerExperience (text : String) : ExperienceResult :=
  let tl := lowerStr text
  let satisfaction_count := countPresent satisfactionIndicators tl
  let dissatisfaction_count := countPresent dissatisfactionIndicators tl
  let effort_count := countPresent effortIndicators tl
  let difficulty_count := countPresent difficultyIndicators tl
  { customer_satisfaction_indicators := satisfaction_count
    customer_dissatisfaction_indicators := dissatisfaction_count
    low_effort_indicators := effort_count
    high_effort_indicators := difficulty_count
    net_satisfaction_score := (satisfaction_count : ℤ) - (dissatisfaction_count : ℤ)
    net_effort_score := (effort_count : ℤ) - (difficulty_count : ℤ) }

/-- A parsed timestamp as returned by `datetime.fromisoformat`: the fields
`_extract_temporal_features` reads.  `weekday` follows Python
`datetime.weekday()`: 0 = Monday, ..., 6 = Sunday. -/
structure PyDateTime where
  year : Nat := 2025
  month : Nat := 1
  day : Nat := 1
  hour : Nat := 0
  minute : Nat := 0
  second : Nat := 0
  weekday : Nat := 0
  deriving Repr, DecidableEq

/-- Zero-padded two-digit rendering, as in `strftime` fields. -/
def pad2 (n : Nat) : String := if n < 10 then "0" ++ toString n else toString n

/-- Zero-padded four-digit rendering of the year (`%Y`). -/
def pad4 (n : Nat) : String :=
  if n < 10 then "000" ++ toString n
  else if n < 100 then "00" ++ toString n
  else if n < 1000 then "0" ++ toString n
  else toString n

/-- `strftime("%A")` weekday names, indexed by Python `weekday()`. -/
def weekdayName (w : Nat) : String :=
  (["Monday", "Tuesday", "Wednesday", "Thursday", "Friday", "Saturday", "Sunday"].get? w).getD ""

/-- `strftime("%B")` month names, indexed by month number 1-12. -/
def monthName (m : Nat) : String :=
  (["January", "February", "March", "April", "May", "June", "July",
    "August", "September", "October", "November", "December"].get? (m - 1)).getD ""

/-- Result fields of `_extract_temporal_features`. -/
structure TemporalFeatures where
  call_date : String
  call_time : String
  call_hour : Nat
  call_day_of_week : String
  call_month : String
  call_year : Nat
  is_weekend : Bool
  is_business_hours : Bool
  call_quarter : String
  deriving Repr, DecidableEq

/-- `SpaDataProcessor._get_default_temporal_features`. -/
def defaultTemporalFeatures : TemporalFeatures :=
  { call_date := "2025-01-01"
    call_time := "12:00:00"
    call_hour := 12
    call_day_of_week := "Monday"
    call_month := "January"
    call_year := 2025
    is_weekend := false
    is_business_hours := true
    call_quarter := "Q1" }

/-- `SpaDataProcessor._extract_temporal_features`, with
`datetime.fromisoformat` abstracted as `parse` (`none` models the
`ValueError` that the `except` clause turns into the defaults).  The source
replaces a `"Z"` suffix by `"+00:00"` before parsing and returns the
defaults for an empty timestamp without parsing at all. -/
def extractTemporalFeatures (parse : String → Option PyDateTime)
    (created_at : String) : TemporalFeatures :=
  if created_at = "" then defaultTemporalFeatures
  else
    match parse (created_at.replace "Z" "+00:00") with
    | none => defaultTemporalFeatures
    | some dt =>
      { call_date := pad4 dt.year ++ "-" ++ pad2 dt.month ++ "-" ++ pad2 dt.day
        call_time := pad2 dt.hour ++ ":" ++ pad2 dt.minute ++ ":" ++ pad2 dt.second
        call_hour := dt.hour
        call_day_of_week := weekdayName dt.weekday
        call_month := monthName dt.month
        call_year := dt.year
        is_weekend := decide (5 ≤ dt.weekday)
        is_business_hours := decide (9 ≤ dt.hour ∧ dt.hour ≤ 17)
        call_quarter := "Q" ++ toString ((dt.month - 1) / 3 + 1) }

/-- The four outcome keyword lists of `_classify_call_outcome`, in checking
order. -/
def resolvedKeywords : List String :=
  ["resolved", "fixed", "solved", "helped", "booked", "scheduled"]

def followupKeywords : List String :=
  ["follow up", "call back", "transfer", "escalate"]

def cancelledKeywords : List String :=
  ["cancel", "cancelled", "no longer", "changed mind"]

def complaintOutcomeKeywords : List String :=
  ["complaint", "refund", "manager", "dissatisfied"]

/-- `SpaDataProcessor._classify_call_outcome`: first-match-wins over the
fixed check order resolved, requires_followup, cancelled, complaint,
completed. -/
def classifyCallOutcome (text : String) : String :=
  let tl := lowerStr text
  if resolvedKeywords.any (fun w => substrIn w tl) then "resolved"
  else if followupKeywords.any (fun w => substrIn w tl) then "requires_followup"
  else if cancelledKeywords.any (fun w => substrIn w tl) then "cancelled"
  else if complaintOutcomeKeywords.any (fun w => substrIn w tl) then "complaint"
  else "completed"

def highUrgencyKeywords : List String :=
  ["urgent", "emergency", "asap", "immediately", "crisis", "critical"]

def mediumUrgencyKeywords : List String :=
  ["soon", "today", "this week", "important", "need help"]

/-- `SpaDataProcessor._classify_urgency`. -/
def classifyUrgency (text : String) : String :=
  let tl := lowerStr text
  if highUrgencyKeywords.any (fun w => substrIn w tl) then "high"
  else if mediumUrgencyKeywords.any (fun w => substrIn w tl) then "medium"
  else "low"

/-- The enriched record built by `_enrich_conversation_data`: the copied
conversation fields plus every sub-feature result. -/
structure EnrichedRecord where
  base : Conversation
  sentiment : SentimentResult
  topics : TopicsResult
  quality : QualityResult
  script : ScriptResult
  experience : ExperienceResult
  temporal : TemporalFeatures
  call_outcome : String
  urgency_level : String
  deriving Repr, DecidableEq

/-- `SpaDataProcessor._enrich_conversation_data`.  Only the topic step can
fail (the `KeyError` of `_classify_topics`); the source has no handler
around it, so the error propagates out of the enrichment call. -/
def enrichConversationData (blob : String → ℚ × ℚ)
    (parse : String → Option PyDateTime) (conversation : Conversation) :
    Except String EnrichedRecord := do
  let text := conversation.conversation_text
  let sentiment_data := analyzeSentiment blob text
  let topics ← classifyTopics text
  let quality_metrics := assessCallQuality text conversation.duration_seconds
  let script_metrics := analyzeScriptAdherence text
  let cx_metrics := analyzeCustomerExperience text
  let temporal_features := extractTemporalFeatures parse conversation.created_at
  let outcome := classifyCallOutcome text
  let urgency := classifyUrgency text
  Except.ok
    { base := conversation
      sentiment := sentiment_data
      topics := topics
      quality := quality_metrics
      script := script_metrics
      experience := cx_metrics
      temporal := temporal_features
      call_outcome := outcome
      urgency_level := urgency }

/-- The per-file inner loop of `process_vcon_files`: enrich every
conversation of a loaded file in order, propagating any enrichment error
(the source wraps no handler around `_enrich_conversation_data`). -/
def enrichAll (enrich : Conversation → Except String EnrichedRecord) :
    List Conversation → Except String (List EnrichedRecord)
  | [] => Except.ok []
  | c :: rest =>
    match enrich c with
    | Except.error e => Except.error e
    | Except.ok r =>
      match enrichAll enrich rest with
      | Except.error e => Except.error e
      | Except.ok rs => Except.ok (r :: rs)

/-- The file loop of `SpaDataProcessor.process_vcon_files` over an already
globbed batch.  Each element of `files` is the outcome of
`VConParser.load_vcon_file` + parsing: `none` when loading failed (file
missing or invalid JSON — logged and skipped, the loop continues), `some
conversations` when the file loaded.  The accumulator carries
`processed_data` and the length of `processed_files`. -/
def processBatchLoop (enrich : Conversation → Except String EnrichedRecord) :
    List (Option (List Conversation)) → List EnrichedRecord → Nat →
    Except String (List EnrichedRecord × Nat)
  | [], acc, k => Except.ok (acc, k)
  | none :: rest, acc, k => processBatchLoop enrich rest acc k
  | some convs :: rest, acc, k =>
    match enrichAll enrich convs with
    | Except.error e => Except.error e
    | Except.ok enriched => processBatchLoop enrich rest (acc ++ enriched) (k + 1)

/-- `SpaDataProcessor.process_vcon_files`: returns the accumulated records
together with the boolean result `len(processed_files) > 0`. -/
def processVconFiles (enrich : Conversation → Except String EnrichedRecord)
    (files : List (Option (List Conversation))) :
    Except String (List EnrichedRecord × Bool) :=
  match processBatchLoop enrich files [] 0 with
  | Except.error e => Except.error e
  | Except.ok (recs, k) => Except.ok (recs, decide (0 < k))

/-- A concrete instantiation of the enrichment: neutral sentiment model and
an always-failing timestamp parse. -/
def defaultEnrich : Conversation → Except String EnrichedRecord :=
  enrichConversationData (fun _ => (0, 0)) (fun _ => none)

/-- The conversation record with an empty transcript and all other fields at
their extraction defaults. -/
def emptyConversation : Conversation := {}

/-- Modelled from the spec wording of claim C9: start at 7.0, add 0.3 per
positive-indicator phrase present, subtract 0.5 per negative-indicator
phrase present, add the duration adjustment (+0.5 in [120,600], -0.3 above
900), clamp to [1,10] and round to 1 decimal. -/
def specCallQualityScore (text : String) (duration : ℚ) : ℚ :=
  let tl := lowerStr text
  let p := countPresent positiveIndicators tl
  let n := countPresent negativeIndicators tl
  let durationAdj : ℚ :=
    if 120 ≤ duration ∧ duration ≤ 600 then 1/2
    else if 900 < duration then -(3/10)
    else 0
  roundTo 1 (pyMax 1 (pyMin 10 (7 + (p : ℚ) * (3/10) - (n : ℚ) * (1/2) + durationAdj)))

/-! ## Helper lemmas -/

theorem pyRoundInt_intCast (m : ℤ) : pyRoundInt (m : ℚ) = m := by
  simp only [pyRoundInt, Int.floor_intCast, sub_self]
  norm_num

theorem pyRoundInt_le (x : ℚ) (B : ℤ) (h : x ≤ (B : ℚ)) : pyRoundInt x ≤ B := by
  have hfl : ⌊x⌋ ≤ B := by
    have := Int.floor_le_floor h
    simpa using this
  have hup : ¬ x - (⌊x⌋ : ℚ) < 1/2 → ⌊x⌋ + 1 ≤ B := by
    intro hge
    have h0 : (0 : ℚ) < x - (⌊x⌋ : ℚ) := by linarith
    have hlt : (⌊x⌋ : ℚ) < (B : ℚ) := by linarith
    have : ⌊x⌋ < B := by exact_mod_cast hlt
    omega
  unfold pyRoundInt
  split_ifs with h1 h2 h3
  · exact hfl
  · exact hup h1
  · exact hfl
  · exact hup h1

theorem pyRoundInt_nonneg (x : ℚ) (h : 0 ≤ x) : 0 ≤ pyRoundInt x := by
  have hfl : 0 ≤ ⌊x⌋ := Int.floor_nonneg.mpr h
  unfold pyRoundInt
  split_ifs <;> omega

theorem roundTo_eq_self (d : ℕ) (q : ℚ) (m : ℤ)
    (h : q * (10 : ℚ) ^ d = (m : ℚ)) : roundTo d q = q := by
  have hpow : ((10 : ℚ) ^ d) ≠ 0 := by positivity
  unfold roundTo
  rw [h, pyRoundInt_intCast, ← h, mul_div_assoc, div_self hpow, mul_one]

theorem roundTo_nonneg (d : ℕ) (q : ℚ) (h : 0 ≤ q) : 0 ≤ roundTo d q := by
  unfold roundTo
  apply div_nonneg _ (by positivity)
  have := pyRoundInt_nonneg (q * (10 : ℚ) ^ d) (by positivity)
  exact_mod_cast this

theorem roundTo_le_one (d : ℕ) (q : ℚ) (h : q ≤ 1) : roundTo d q ≤ 1 := by
  have hpow : (0 : ℚ) < (10 : ℚ) ^ d := by positivity
  have hle : q * (10 : ℚ) ^ d ≤ (((10 : ℕ) ^ d : ℤ) : ℚ) := by
    push_cast
    nlinarith
  have h2 := pyRoundInt_le _ _ hle
  unfold roundTo
  rw [div_le_one hpow]
  calc ((pyRoundInt (q * (10 : ℚ) ^ d) : ℤ) : ℚ)
      ≤ (((10 : ℕ) ^ d : ℤ) : ℚ) := by exact_mod_cast h2
    _ = (10 : ℚ) ^ d := by push_cast; ring

theorem sum_indicator_map_eq_countP {α : Type} (p : α → Bool) (f : α → String) :
    ∀ l : List α,
      ((l.map (fun x => (f x, if p x then (1 : Nat) else 0))).map Prod.snd).sum
        = l.countP p := by
  intro l
  induction l with
  | nil => simp
  | cons a t ih =>
    simp only [List.map_map] at ih
    by_cases hp : p a <;> simp [List.countP_cons, hp, List.map_map, ih] <;> omega

theorem metricsLoop_counts (dialog : List DialogEntry) : ∀ m : Metrics,
    (metricsLoop dialog m).agent_messages + (metricsLoop dialog m).customer_messages
        = m.agent_messages + m.customer_messages + dialog.length ∧
    (metricsLoop dialog m).message_count = m.message_count := by
  induction dialog with
  | nil => intro m; simp [metricsLoop]
  | cons e rest ih =>
    intro m
    simp only [metricsLoop]
    by_cases hp : e.party == 0 <;> by_cases ht : e.type == "recording" <;>
      · simp only [hp, ht, if_pos, if_neg, ite_true, ite_false, Bool.false_eq_true,
          reduceIte]
        obtain ⟨h1, h2⟩ := ih _
        refine ⟨?_, by simpa using h2⟩
        rw [h1]
        simp [List.length_cons]
        omega

theorem processBatchLoop_count (enrich : Conversation → Except String EnrichedRecord) :
    ∀ (files : List (Option (List Conversation))) (acc : List EnrichedRecord)
      (k : Nat) (recs : List EnrichedRecord) (k2 : Nat),
      processBatchLoop enrich files acc k = Except.ok (recs, k2) →
      k2 = k + files.countP Option.isSome := by
  intro files
  induction files with
  | nil =>
    intro acc k recs k2 h
    simp only [processBatchLoop, Except.ok.injEq, Prod.mk.injEq] at h
    simp [← h.2]
  | cons f rest ih =>
    intro acc k recs k2 h
    cases f with
    | none =>
      simp only [processBatchLoop] at h
      have := ih acc k recs k2 h
      simp [List.countP_cons, this]
    | some convs =>
      simp only [processBatchLoop] at h
      cases henr : enrichAll enrich convs with
      | error e => rw [henr] at h; exact absurd h (by simp)
      | ok enriched =>
        rw [henr] at h
        have := ih _ _ recs k2 h
        simp [List.countP_cons, this]
        omega

/-! ## Claim theorems -/

/-- Claim C1 (code bug): on a transcript with zero keyword matches in every
topic bucket — the empty transcript here — `_classify_topics` does not
return `primary_topic = "general"` with confidence 0 as the spec states: it
sets `primary_topic = "general"` and then evaluates
`topic_scores["general"]`, a key absent from the score dictionary, so the
call raises `KeyError` instead of returning. -/
theorem c1_classify_topics_keyerror :
    classifyTopics "" = Except.error "KeyError: general" := by rfl

/-- Claim C2 (code bug): enrichment is not total.  On a valid conversation
record whose transcript is empty, `_enrich_conversation_data` propagates the
`KeyError` raised inside `_classify_topics`, contradicting the claim that
`enrich` never raises and always yields a fully populated record. -/
theorem c2_enrich_raises_on_empty_transcript :
    defaultEnrich emptyConversation = Except.error "KeyError: general" := by rfl

/-- Claim C10: every dialog turn is counted as exactly one of agent (party
index 0) or customer (any other party index), so
`agent_messages + customer_messages = message_count = length of the dialog
list` for every conversation. -/
theorem c10_message_count_invariant (dialog : List DialogEntry)
    (analysis : List AnalysisEntry) :
    (calculateConversationMetrics dialog analysis).agent_messages
        + (calculateConversationMetrics dialog analysis).customer_messages
      = (calculateConversationMetrics dialog analysis).message_count ∧
    (calculateConversationMetrics dialog analysis).message_count = dialog.length := by
  obtain ⟨h1, h2⟩ := metricsLoop_counts dialog
    { total_duration := 0
      message_count := dialog.length
      agent_messages := 0
      customer_messages := 0
      avg_response_time := 0
      conversation_type := "unknown"
      has_recording := false
      has_analysis := decide (0 < analysis.length) }
  simp only [calculateConversationMetrics]
  constructor
  · simp only [h1, h2]
    omega
  · exact h2

/-- Claim C7: a conversation whose `created_at` is missing (empty) or
unparseable as an ISO-8601 timestamp gets exactly the documented sentinel
temporal tuple. -/
theorem c7_temporal_default (parse : String → Option PyDateTime)
    (created_at : String)
    (h : created_at = "" ∨ parse (created_at.replace "Z" "+00:00") = none) :
    extractTemporalFeatures parse created_at =
      { call_date := "2025-01-01", call_time := "12:00:00", call_hour := 12,
        call_day_of_week := "Monday", call_month := "January", call_year := 2025,
        is_weekend := false, is_business_hours := true, call_quarter := "Q1" } := by
  unfold extractTemporalFeatures
  by_cases hc : created_at = ""
  · rw [if_pos hc]; rfl
  · rcases h with h | h
    · exact absurd h hc
    · rw [if_neg hc, h]; rfl

/-- Witness for C7 at a concrete unparseable timestamp. -/
theorem c7_temporal_default_witness :
    extractTemporalFeatures (fun _ => none) "not-a-timestamp" =
      { call_date := "2025-01-01", call_time := "12:00:00", call_hour := 12,
        call_day_of_week := "Monday", call_month := "January", call_year := 2025,
        is_weekend := false, is_business_hours := true, call_quarter := "Q1" } :=
  c7_temporal_default (fun _ => none) "not-a-timestamp" (Or.inr rfl)

/-- Claim C4 counterexample: a party whose email local part contains
`"spa"` while the email domain contains neither the brand token nor
`"spa"`, and whose name has no agent indicator.  The code still assigns
role `"agent"`, so the claimed characterization through the email *domain*
is false at this input. -/
theorem c4_domain_counterexample :
    determinePartyRole { name := "Bob", email := "spa@gmail.com" } = "agent" ∧
    agentNameIndicators.any (fun ind => substrIn ind (lowerStr "Bob")) = false ∧
    substrIn "feelgoodspas" (emailDomain (lowerStr "spa@gmail.com")) = false ∧
    substrIn "spa" (emailDomain (lowerStr "spa@gmail.com")) = false := by
  refine ⟨by decide, by decide, by decide, by decide⟩

/-- Claim C4 as amended: role resolution returns `"agent"` exactly when the
lower-cased name contains one of the agent indicators or the lower-cased
*entire email string* contains `"feelgoodspas"` or `"spa"`; in every other
case it returns `"customer"`; in particular an email containing `"spa"`
forces role `"agent"` regardless of the name. -/
theorem c4_role_rule_amended (p : Party) :
    (determinePartyRole p = "agent" ↔
      (agentNameIndicators.any (fun ind => substrIn ind (lowerStr p.name)) = true ∨
       substrIn "feelgoodspas" (lowerStr p.email) = true ∨
       substrIn "spa" (lowerStr p.email) = true)) ∧
    (determinePartyRole p = "customer" ↔
      ¬(agentNameIndicators.any (fun ind => substrIn ind (lowerStr p.name)) = true ∨
        substrIn "feelgoodspas" (lowerStr p.email) = true ∨
        substrIn "spa" (lowerStr p.email) = true)) ∧
    (substrIn "spa" (lowerStr p.email) = true → determinePartyRole p = "agent") := by
  unfold determinePartyRole
  by_cases h1 : agentNameIndicators.any (fun ind => substrIn ind (lowerStr p.name)) = true <;>
    by_cases h2 : substrIn "feelgoodspas" (lowerStr p.email) = true <;>
      by_cases h3 : substrIn "spa" (lowerStr p.email) = true <;>
        simp [h1, h2, h3]

/-- Witness for C4: the implication part of the amended rule applied at a
concrete party whose email contains `"spa"` but whose name is neutral. -/
theorem c4_role_rule_amended_witness :
    determinePartyRole { name := "Ann", email := "spa@feelgood.example" } = "agent" :=
  (c4_role_rule_amended { name := "Ann", email := "spa@feelgood.example" }).2.2 (by decide)

/-- Claim C3 counterexample: on the transcript `"rude escalate manager"`
(duration 1000 s) the call outcome is `"requires_followup"`, not the
`"complaint"` the claim states: `"escalate"` matches the
`requires_followup` check, which precedes the complaint check in the fixed
check order. -/
theorem c3_outcome_counterexample :
    classifyCallOutcome "rude escalate manager" = "requires_followup" ∧
    ¬ classifyCallOutcome "rude escalate manager" = "complaint" := by
  refine ⟨by decide, by decide⟩

/-- Closed form of the quality score when only negative indicators fire and
the duration draws the long-call penalty: the clamp and the rounding are
both the identity because the raw score stays within [1, 10] and is an
exact multiple of 1/10. -/
theorem quality_score_negative_closed_form (text : String) (duration : ℚ)
    (hd1 : ¬(120 ≤ duration ∧ duration ≤ 600)) (hd2 : 900 < duration)
    (hpos : countPresent positiveIndicators (lowerStr text) = 0)
    (hn3 : 3 ≤ countPresent negativeIndicators (lowerStr text))
    (hn9 : countPresent negativeIndicators (lowerStr text) ≤ 9) :
    (assessCallQuality text duration).call_quality_score
      = 7 - (countPresent negativeIndicators (lowerStr text) : ℚ) * (1/2) - 3/10 := by
  have hc3 : (3 : ℚ) ≤ (countPresent negativeIndicators (lowerStr text) : ℚ) := by
    exact_mod_cast hn3
  have hc9 : (countPresent negativeIndicators (lowerStr text) : ℚ) ≤ 9 := by
    exact_mod_cast hn9
  simp only [assessCallQuality, hpos, Nat.cast_zero, zero_mul, add_zero,
    if_neg hd1, if_pos hd2]
  have hmin : pyMin 10 (7 - (countPresent negativeIndicators (lowerStr text) : ℚ) * (1/2) - 3/10)
      = 7 - (countPresent negativeIndicators (lowerStr text) : ℚ) * (1/2) - 3/10 := by
    unfold pyMin
    rw [if_neg (by intro h10; linarith)]
  have hmax : pyMax 1 (7 - (countPresent negativeIndicators (lowerStr text) : ℚ) * (1/2) - 3/10)
      = 7 - (countPresent negativeIndicators (lowerStr text) : ℚ) * (1/2) - 3/10 := by
    unfold pyMax
    rw [if_neg (by intro hle; linarith)]
  rw [hmin, hmax]
  exact roundTo_eq_self 1 _ (67 - 5 * (countPresent negativeIndicators (lowerStr text) : ℤ))
    (by push_cast; ring)

/-- Claim C3 as amended: for every transcript whose lower-cased text
contains `"rude"`, `"escalate"` and `"manager"`, with duration 1000 s, the
outcome is `"requires_followup"` (not `"complaint"`) provided no
resolved-bucket keyword occurs, and — provided additionally no
positive-indicator phrase occurs — the quality score is reduced from the
7.0 baseline by at least 2 × 0.5 plus the 0.3 long-duration penalty and
stays at least 1.0. -/
theorem c3_followup_and_quality_amended (text : String)
    (hrude : substrIn "rude" (lowerStr text) = true)
    (hesc : substrIn "escalate" (lowerStr text) = true)
    (hmgr : substrIn "manager" (lowerStr text) = true) :
    (resolvedKeywords.any (fun w => substrIn w (lowerStr text)) = false →
        classifyCallOutcome text = "requires_followup") ∧
    (countPresent positiveIndicators (lowerStr text) = 0 →
        1 ≤ (assessCallQuality text 1000).call_quality_score ∧
        (assessCallQuality text 1000).call_quality_score ≤ 7 - (2 * (1/2 : ℚ) + 3/10)) := by
  have hn3 : 3 ≤ countPresent negativeIndicators (lowerStr text) := by
    have hsub : List.Sublist ["rude", "manager", "escalate"] negativeIndicators := by decide
    have hle := hsub.countP_le (fun w => substrIn w (lowerStr text))
    have h3 : List.countP (fun w => substrIn w (lowerStr text)) ["rude", "manager", "escalate"]
        = 3 := by
      simp [List.countP_cons, hrude, hmgr, hesc]
    unfold countPresent
    omega
  have hn9 : countPresent negativeIndicators (lowerStr text) ≤ 9 := by
    unfold countPresent
    have := List.countP_le_length (fun w => substrIn w (lowerStr text))
      (l := negativeIndicators)
    simpa [negativeIndicators] using this
  constructor
  · intro hres
    simp [classifyCallOutcome, hres, followupKeywords, hesc]
  · intro hpos
    have hclosed := quality_score_negative_closed_form text 1000 (by norm_num)
      (by norm_num) hpos hn3 hn9
    have hc3 : (3 : ℚ) ≤ (countPresent negativeIndicators (lowerStr text) : ℚ) := by
      exact_mod_cast hn3
    have hc9 : (countPresent negativeIndicators (lowerStr text) : ℚ) ≤ 9 := by
      exact_mod_cast hn9
    rw [hclosed]
    constructor <;> linarith

/-- Witness for C3: the amended statement instantiated at the transcript
`"rude escalate manager"`. -/
theorem c3_followup_and_quality_amended_witness :
    classifyCallOutcome "rude escalate manager" = "requires_followup" ∧
    (1 ≤ (assessCallQuality "rude escalate manager" 1000).call_quality_score ∧
     (assessCallQuality "rude escalate manager" 1000).call_quality_score
        ≤ 7 - (2 * (1/2 : ℚ) + 3/10)) := by
  have h := c3_followup_and_quality_amended "rude escalate manager"
    (by decide) (by decide) (by decide)
  exact ⟨h.1 (by decide), h.2 (by decide)⟩

/-- Claim C5 counterexample: a batch consisting of one valid file that
yields zero conversations.  The run reports success (`true`) although no
output record was produced, so success is not equivalent to "at least one
record". -/
theorem c5_zero_records_success_counterexample :
    processVconFiles defaultEnrich [some []] = Except.ok ([], true) := by rfl

/-- Claim C5 as amended: a file that fails to load (missing or invalid
JSON) is skipped and the batch continues unchanged, and — when the run
finishes without an enrichment exception — it reports success exactly when
at least one input file was successfully loaded, regardless of how many
records the loaded files produced. -/
theorem c5_batch_amended (enrich : Conversation → Except String EnrichedRecord)
    (files : List (Option (List Conversation)))
    (recs : List EnrichedRecord) (success : Bool) :
    processVconFiles enrich (none :: files) = processVconFiles enrich files ∧
    (processVconFiles enrich files = Except.ok (recs, success) →
      (success = true ↔ ∃ f ∈ files, f.isSome = true)) := by
  constructor
  · rfl
  · intro h
    unfold processVconFiles at h
    cases hloop : processBatchLoop enrich files [] 0 with
    | error e => rw [hloop] at h; exact absurd h (by simp)
    | ok pr =>
      rw [hloop] at h
      have hk := processBatchLoop_count enrich files [] 0 pr.1 pr.2 (by rw [hloop])
      simp only [Except.ok.injEq, Prod.mk.injEq] at h
      rw [← h.2, hk]
      simp only [Nat.zero_add, decide_eq_true_eq]
      rw [List.countP_pos_iff]

/-- Witness for C5: the amended statement instantiated at a batch with one
skipped load failure and one loaded empty file; the hypothesis of the
success criterion is discharged by evaluating the batch. -/
theorem c5_batch_amended_witness :
    processVconFiles defaultEnrich [none, some []] = processVconFiles defaultEnrich [some []] ∧
    ((true : Bool) = true ↔ ∃ f ∈ [some ([] : List Conversation)], f.isSome = true) := by
  have h := c5_batch_amended defaultEnrich [some []] [] true
  exact ⟨h.1, h.2 (by rfl)⟩

/-- Claim C6: the script adherence rate is the rounded-to-3-decimals value
of `followed_count / 6`, where `followed_count` is the number of the 6
script elements with at least one marker phrase in the transcript, and the
emitted rate always lies in [0, 1]. -/
theorem c6_script_adherence_rate (text : String) :
    (analyzeScriptAdherence text).script_elements_followed
        = scriptElements.countP (fun e => e.2.any (fun ph => substrIn ph (lowerStr text))) ∧
    (analyzeScriptAdherence text).script_elements_followed ≤ 6 ∧
    (analyzeScriptAdherence text).script_elements_total = 6 ∧
    (analyzeScriptAdherence text).script_adherence_rate
        = roundTo 3
            ((scriptElements.countP (fun e => e.2.any (fun ph => substrIn ph (lowerStr text))) : ℚ) / 6) ∧
    0 ≤ (analyzeScriptAdherence text).script_adherence_rate ∧
    (analyzeScriptAdherence text).script_adherence_rate ≤ 1 := by
  have hsum := sum_indicator_map_eq_countP
    (fun e => e.2.any (fun ph => substrIn ph (lowerStr text))) Prod.fst scriptElements
  have hlen : scriptElements.length = 6 := by rfl
  have hk6 : scriptElements.countP
      (fun e => e.2.any (fun ph => substrIn ph (lowerStr text))) ≤ 6 := by
    have := List.countP_le_length
      (fun e => e.2.any (fun ph => substrIn ph (lowerStr text))) (l := scriptElements)
    omega
  have hq0 : (0 : ℚ) ≤ (scriptElements.countP
      (fun e => e.2.any (fun ph => substrIn ph (lowerStr text))) : ℚ) / 6 := by positivity
  have hq1 : (scriptElements.countP
      (fun e => e.2.any (fun ph => substrIn ph (lowerStr text))) : ℚ) / 6 ≤ 1 := by
    rw [div_le_one (by norm_num)]
    exact_mod_cast hk6
  simp only [analyzeScriptAdherence, hsum, hlen]
  refine ⟨trivial, hk6, trivial, by norm_num, roundTo_nonneg _ _ hq0, roundTo_le_one _ _ hq1⟩

/-- Claim C9: the call quality score equals the spec formula — 7.0 baseline,
+0.3 per positive indicator present, −0.5 per negative indicator present,
+0.5 for duration in [120, 600], −0.3 for duration above 900, clamped to
[1, 10] and rounded to 1 decimal. -/
theorem c9_call_quality_formula (text : String) (duration : ℚ) :
    (assessCallQuality text duration).call_quality_score
      = specCallQualityScore text duration := by
  simp only [assessCallQuality, specCallQualityScore]
  split_ifs with h1 h2
  · rfl
  · rw [sub_eq_add_neg]
  · rw [add_zero]

/-- Claim C8: `metrics.conversation_type` agrees with the spec description —
four keyword buckets counted case-insensitively, highest count wins, ties
broken first-checked-bucket-wins in the fixed order booking, complaint,
billing, service, and `"general"` when every count is zero. -/
theorem c8_conversation_type_agrees (text : String) :
    classifyConversationType text = specConversationType text := by
  unfold classifyConversationType specConversationType
  set b := countPresent bookingKeywords (lowerStr text) with hbdef
  set c := countPresent complaintKeywords (lowerStr text) with hcdef
  set l := countPresent billingKeywords (lowerStr text) with hldef
  set s := countPresent serviceKeywords (lowerStr text) with hsdef
  simp only [List.map_cons, List.map_nil, List.foldl_cons, List.foldl_nil, Nat.zero_max]
  by_cases h0 : max (max (max b c) l) s = 0
  · simp [h0]
  · rw [if_neg h0, if_neg h0]
    by_cases hbM : max (max (max b c) l) s = b
    · have hbT : (b == max (max (max b c) l) s) = true :=
        beq_iff_eq.mpr hbM.symm
      rw [if_pos hbM]
      simp [List.find?, hbT]
    · have hbF : (b == max (max (max b c) l) s) = false := by
        rw [beq_eq_false_iff_ne]
        intro heq
        exact hbM heq.symm
      rw [if_neg hbM]
      by_cases hcM : max (max (max b c) l) s = c
      · have hcT : (c == max (max (max b c) l) s) = true :=
          beq_iff_eq.mpr hcM.symm
        rw [if_pos hcM]
        simp [List.find?, hbF, hcT]
      · have hcF : (c == max (max (max b c) l) s) = false := by
          rw [beq_eq_false_iff_ne]
          intro heq
          exact hcM heq.symm
        rw [if_neg hcM]
        by_cases hlM : max (max (max b c) l) s = l
        · have hlT : (l == max (max (max b c) l) s) = true :=
            beq_iff_eq.mpr hlM.symm
          rw [if_pos hlM]
          simp [List.find?, hbF, hcF, hlT]
        · have hlF : (l == max (max (max b c) l) s) = false := by
            rw [beq_eq_false_iff_ne]
            intro heq
            exact hlM heq.symm
          have h4 : ∀ x y z w : ℕ, ¬ max (max (max x y) z) w = x →
              ¬ max (max (max x y) z) w = y →
              ¬ max (max (max x y) z) w = z →
              max (max (max x y) z) w = w := by
            intro x y z w hx hy hz
            omega
          have hsM : max (max (max b c) l) s = s := h4 b c l s hbM hcM hlM
          have hsT : (s == max (max (max b c) l) s) = true :=
            beq_iff_eq.mpr hsM.symm
          rw [if_neg hlM]
          simp [List.find?, hbF, hcF, hlF, hsT]
